import Mathlib

/-!
Verification of the BasicSeek tactic
(rj_gameplay/rj_gameplay/tactic/basic_seek.py).

Shallow embedding: field geometry is modelled over the rationals; python
list indexing that can raise IndexError is modelled with Option (none is
an uncaught index error propagating to the caller); the mutable tactic
object is modelled by explicit state passing.  External collaborators
(the SeekerRole behavior, the cost-function object, the resolver that
populates assigned_robots) are outside the embedded module; they are
modelled from the spec where noted.
-/

/-- The Field snapshot (external, read-only): the attributes of
world_state.field that basic_seek.py reads.  Coordinates are rationals.
Named RcField after the source class stp.rc.Field, since Field is taken
by the algebra library. -/
structure RcField where
  length_m : ℚ
  width_m : ℚ
  def_area_x_left_coord : ℚ
  def_area_x_right_coord : ℚ
  bot_left_field_loc : ℚ × ℚ
  bot_right_field_loc : ℚ × ℚ
  center_field_loc : ℚ × ℚ
  center_diameter_m : ℚ
deriving DecidableEq

/-- The WorldState snapshot: basic_seek.py only dereferences its field
attribute, so that is all the embedding carries. -/
structure WorldState where
  field : RcField
deriving DecidableEq

/-- A Region: an axis-aligned rectangle (left_x, top_y, right_x, bottom_y),
the 4-tuple convention of basic_seek.py (indices 0,1,2,3 of the python
tuple are the four fields in order). -/
structure Region where
  left_x : ℚ
  top_y : ℚ
  right_x : ℚ
  bottom_y : ℚ
deriving DecidableEq

/-- An assigned robot; only its id is read by the embedded code. -/
structure Robot where
  id : ℕ
deriving DecidableEq

/-- Modelled from the spec: a Role implementation is given (agent_ref,
region) at construction; the seeker role object stores exactly that. -/
structure SeekerRole where
  robot : Robot
  region : Region
deriving DecidableEq

/-- The role-kind tag carried by a role request.  basic_seek.py compares
the tag by identity against seeker.SeekerRole; seeker is the only kind the
module constructs. -/
inductive RoleKind where
  | seeker
deriving DecidableEq

/-- Modelled from the spec: stp.role.cost.PickClosestToPoint is outside
src; per the spec it is a cost function, closed over a target point, that
ranks candidate agents by Euclidean distance from that point (lower is
better). -/
structure PickClosestToPoint where
  target : ℚ × ℚ
deriving DecidableEq

/-- Modelled from the spec: the cost PickClosestToPoint assigns to an
agent at a given position.  We use the squared Euclidean distance to the
target, which is rational and induces exactly the ranking by Euclidean
distance (both are monotone in each other on nonnegative values). -/
def PickClosestToPoint.cost (c : PickClosestToPoint) (pos : ℚ × ℚ) : ℚ :=
  (pos.1 - c.target.1) * (pos.1 - c.target.1) +
    (pos.2 - c.target.2) * (pos.2 - c.target.2)

/-- The mutable state of a BasicSeek tactic object: the recorded regions,
the requested seeker count, the role requests, the externally populated
assigned robots, and the roles appended by init_roles. -/
structure BasicSeek where
  used_regions : List Region
  num_seekers : ℕ
  role_requests : List (PickClosestToPoint × RoleKind)
  assigned_robots : List Robot
  assigned_roles : List SeekerRole
deriving DecidableEq

/-- The embedding of BasicSeek.get_x_formation: the five hard-coded
region bounds, in source order.  Note that the source computes
center_ydown from index 0 (the x-coordinate) of center_field_loc, while
center_yup uses index 1; the embedding reproduces that. -/
def get_x_formation (world_state : WorldState) : List Region :=
  let y_quarter := world_state.field.length_m / 4
  let y_3quarter := world_state.field.length_m - y_quarter
  let field_y := world_state.field.length_m
  let box_xright := world_state.field.def_area_x_right_coord
  let box_xleft := world_state.field.def_area_x_left_coord
  let field_xleft := world_state.field.bot_left_field_loc.1
  let field_xright := world_state.field.bot_right_field_loc.1
  let center_xleft :=
    world_state.field.center_field_loc.1 - world_state.field.center_diameter_m
  let center_xright :=
    world_state.field.center_field_loc.1 + world_state.field.center_diameter_m
  let center_yup :=
    world_state.field.center_field_loc.2 + world_state.field.center_diameter_m
  let center_ydown :=
    world_state.field.center_field_loc.1 - world_state.field.center_diameter_m
  [ ⟨field_xleft, field_y - 1, box_xleft, y_3quarter⟩,
    ⟨box_xright, field_y - 1, field_xright, y_3quarter⟩,
    ⟨center_xleft, center_yup, center_xright, center_ydown⟩,
    ⟨field_xleft, y_quarter, box_xleft, 1⟩,
    ⟨box_xright, y_quarter, field_xright, 1⟩ ]

/-- The python loop for i in range(n): xs[i], collecting the results in
order: it yields the first n elements and raises IndexError (none here)
when n exceeds the list length. -/
def takeExact {α : Type} : ℕ → List α → Option (List α)
  | 0, _ => some []
  | _ + 1, [] => none
  | n + 1, a :: as => (takeExact n as).map (fun bs => a :: bs)

/-- The centroid used in BasicSeek.__init__:
((region[0] + region[2]) / 2, (region[1] + region[3]) / 2). -/
def regionCentroid (r : Region) : ℚ × ℚ :=
  ((r.left_x + r.right_x) / 2, (r.top_y + r.bottom_y) / 2)

/-- The embedding of BasicSeek.__init__ with the given world_state and
num_seekers: runs
get_x_formation once, then for each i below num_seekers records
formation[i] in used_regions and appends the role request
(PickClosestToPoint(centroid), SeekerRole).  Returns none when the loop
indexes past the end of the formation (python IndexError).  The inherited
role-request list and the assigned lists start empty. -/
def BasicSeek.init (world_state : WorldState) (num_seekers : ℕ) :
    Option BasicSeek :=
  let formation := get_x_formation world_state
  (takeExact num_seekers formation).map (fun regions =>
    ⟨regions, num_seekers,
      regions.map (fun r => (⟨regionCentroid r⟩, RoleKind.seeker)),
      [], []⟩)

/-- The external resolver populating the assigned-robot roster of the
tactic (outside the embedded module). -/
def BasicSeek.assign (t : BasicSeek) (robots : List Robot) : BasicSeek :=
  { t with assigned_robots := robots }

/-- The loop body of BasicSeek.init_roles: for each assigned robot at
index i, read role_requests[i] (first) and used_regions[i] (second),
construct SeekerRole(robot, region) when the kind tag is seeker.  The
lists are consumed positionally; exhausting role_requests or used_regions
before the robots is a python IndexError (none), with role_requests read
first as in the source. -/
def bindRoles : List Robot → List (PickClosestToPoint × RoleKind) →
    List Region → Option (List SeekerRole)
  | [], _, _ => some []
  | _ :: _, [], _ => none
  | _ :: _, _ :: _, [] => none
  | robot :: robots, req :: reqs, my_region :: regions =>
    match req.2 with
    | RoleKind.seeker =>
      (bindRoles robots reqs regions).map
        (fun roles => SeekerRole.mk robot my_region :: roles)

/-- The embedding of BasicSeek.init_roles: appends one constructed role
per assigned robot onto the existing assigned_roles list (the source
mutates the list with append, never clearing it). -/
def BasicSeek.init_roles (t : BasicSeek) : Option BasicSeek :=
  (bindRoles t.assigned_robots t.role_requests t.used_regions).map
    (fun roles => { t with assigned_roles := t.assigned_roles ++ roles })

/-- The embedding of BasicSeek.tick: when the bound-role count differs
from the request count, run init_roles first; then return the new state
together with the
list of (robot id, intent) pairs obtained by ticking every bound role in
order.  The SeekerRole tick itself is an external collaborator, so it is
a parameter (seeker_tick) producing an opaque Intent. -/
def BasicSeek.tick {Intent : Type}
    (seeker_tick : SeekerRole → WorldState → Intent)
    (t : BasicSeek) (world_state : WorldState) :
    Option (BasicSeek × List (ℕ × Intent)) :=
  (if t.assigned_roles.length ≠ t.role_requests.length
    then t.init_roles else some t).map
    (fun t2 =>
      (t2, t2.assigned_roles.map
        (fun role => (role.robot.id, seeker_tick role world_state))))

/-- The embedding of BasicSeek.is_done: all bound roles report done.
The per-role is_done query is the external collaborator parameter
seeker_done. -/
def BasicSeek.is_done (seeker_done : SeekerRole → WorldState → Bool)
    (t : BasicSeek) (world_state : WorldState) : Bool :=
  t.assigned_roles.all (fun role => seeker_done role world_state)

/-- The concrete Field scenario of the spec test section: length 9,
width 6, penalty-box x-edges 1.5 and 7.5, corners at x 0 and 6, center
point (4.5, 3.0), center diameter 0.5. -/
def scenario_ws : WorldState :=
  ⟨⟨9, 6, 3 / 2, 15 / 2, (0, 0), (6, 0), (9 / 2, 3), 1 / 2⟩⟩

/-- A concrete instantiation of the external seeker tick: it emits the
target region of the role as the (opaque) intent. -/
def regionTick : SeekerRole → WorldState → Region := fun r _ => r.region

/-- The value BasicSeek.init returns on the scenario field with
num_seekers = 2 (established below as scenario_init_eq). -/
def scenario_t0 : BasicSeek :=
  ⟨(get_x_formation scenario_ws).take 2, 2,
    ((get_x_formation scenario_ws).take 2).map
      (fun r => (⟨regionCentroid r⟩, RoleKind.seeker)),
    [], []⟩

/-- The scenario tactic with only one assigned robot (id 7) although two
were requested. -/
def scenario_t_partial : BasicSeek := scenario_t0.assign [⟨7⟩]

/-- The scenario tactic with the full roster of two assigned robots, ids
7 and 3 in resolver order. -/
def scenario_t_full : BasicSeek := scenario_t0.assign [⟨7⟩, ⟨3⟩]

/-- The scenario tactic after its first tick bound the roles. -/
def scenario_t1 : BasicSeek :=
  { scenario_t_full with
    assigned_roles := List.zipWith SeekerRole.mk
      scenario_t_full.assigned_robots scenario_t_full.used_regions }

/-- The output of the first full-roster scenario tick. -/
def scenario_out1 : List (ℕ × Region) :=
  scenario_t1.assigned_roles.map
    (fun role => (role.robot.id, regionTick role scenario_ws))

/-- The bound roles after two ticks of the under-assigned scenario
tactic (two seekers requested, one robot assigned). -/
def twoTickRoles : Option (List SeekerRole) := do
  let (t1, _) ← BasicSeek.tick regionTick scenario_t_partial scenario_ws
  let (t2, _) ← BasicSeek.tick regionTick t1 scenario_ws
  pure t2.assigned_roles

/-- The at-most-one-role-per-agent property of a bound-role list. -/
def atMostOneRolePerRobot (roles : List SeekerRole) : Bool :=
  roles.all (fun r => (roles.filter (fun r2 => r2.robot == r.robot)).length ≤ 1)

/-! Helper lemmas about the embedded operations. -/

theorem takeExact_of_le {α : Type} :
    ∀ (n : ℕ) (l : List α), n ≤ l.length → takeExact n l = some (l.take n) := by
  intro n
  induction n with
  | zero => intro l _; simp [takeExact]
  | succ n ih =>
    intro l hl
    cases l with
    | nil => simp at hl
    | cons a as =>
      simp only [List.length_cons, Nat.succ_le_succ_iff] at hl
      simp [takeExact, ih as hl]

theorem takeExact_some {α : Type} :
    ∀ (n : ℕ) (l xs : List α), takeExact n l = some xs →
      n ≤ l.length ∧ xs = l.take n := by
  intro n
  induction n with
  | zero => intro l xs h; simp [takeExact] at h; simp [h.symm]
  | succ n ih =>
    intro l xs h
    cases l with
    | nil => simp [takeExact] at h
    | cons a as =>
      simp only [takeExact, Option.map_eq_some'] at h
      obtain ⟨bs, hbs, hxs⟩ := h
      obtain ⟨hle, hbs2⟩ := ih as bs hbs
      subst hxs
      subst hbs2
      simp [Nat.succ_le_succ hle]

theorem bindRoles_some :
    ∀ (robots : List Robot) (reqs : List (PickClosestToPoint × RoleKind))
      (regs : List Region),
      robots.length ≤ reqs.length → robots.length ≤ regs.length →
      bindRoles robots reqs regs
        = some (List.zipWith SeekerRole.mk robots regs) := by
  intro robots
  induction robots with
  | nil => intro reqs regs _ _; simp [bindRoles]
  | cons r rs ih =>
    intro reqs regs h1 h2
    cases reqs with
    | nil => simp at h1
    | cons q qs =>
      cases regs with
      | nil => simp at h2
      | cons g gs =>
        obtain ⟨c, k⟩ := q
        cases k
        simp only [List.length_cons, Nat.succ_le_succ_iff] at h1 h2
        simp [bindRoles, ih qs gs h1 h2]

theorem bindRoles_none_of_short :
    ∀ (robots : List Robot) (reqs : List (PickClosestToPoint × RoleKind))
      (regs : List Region),
      reqs.length < robots.length → bindRoles robots reqs regs = none := by
  intro robots
  induction robots with
  | nil => intro reqs regs h; simp at h
  | cons r rs ih =>
    intro reqs regs h
    cases reqs with
    | nil => simp [bindRoles]
    | cons q qs =>
      cases regs with
      | nil => simp [bindRoles]
      | cons g gs =>
        obtain ⟨c, k⟩ := q
        cases k
        simp only [List.length_cons, Nat.succ_lt_succ_iff] at h
        simp [bindRoles, ih qs gs h]

theorem init_roles_eq (t : BasicSeek)
    (h1 : t.assigned_robots.length ≤ t.role_requests.length)
    (h2 : t.assigned_robots.length ≤ t.used_regions.length) :
    t.init_roles = some { t with
      assigned_roles :=
        t.assigned_roles ++
          List.zipWith SeekerRole.mk t.assigned_robots t.used_regions } := by
  unfold BasicSeek.init_roles
  rw [bindRoles_some t.assigned_robots t.role_requests t.used_regions h1 h2]
  rfl

theorem init_roles_frame (t t2 : BasicSeek) (h : t.init_roles = some t2) :
    t2.used_regions = t.used_regions ∧
    t2.role_requests = t.role_requests ∧
    t2.assigned_robots = t.assigned_robots := by
  unfold BasicSeek.init_roles at h
  rw [Option.map_eq_some'] at h
  obtain ⟨roles, _, ht2⟩ := h
  subst ht2
  exact ⟨rfl, rfl, rfl⟩

theorem tick_bound_eq {Intent : Type}
    (seeker_tick : SeekerRole → WorldState → Intent)
    (t : BasicSeek) (ws : WorldState)
    (h : t.assigned_roles.length = t.role_requests.length) :
    BasicSeek.tick seeker_tick t ws = some (t, t.assigned_roles.map
      (fun role => (role.robot.id, seeker_tick role ws))) := by
  simp [BasicSeek.tick, h]

theorem tick_unbound_eq {Intent : Type}
    (seeker_tick : SeekerRole → WorldState → Intent)
    (t : BasicSeek) (ws : WorldState)
    (h : t.assigned_roles.length ≠ t.role_requests.length) :
    BasicSeek.tick seeker_tick t ws = t.init_roles.map
      (fun t2 => (t2, t2.assigned_roles.map
        (fun role => (role.robot.id, seeker_tick role ws)))) := by
  unfold BasicSeek.tick
  rw [if_pos h]

theorem tick_over_requested {Intent : Type}
    (seeker_tick : SeekerRole → WorldState → Intent)
    (t : BasicSeek) (ws : WorldState)
    (hfresh : t.assigned_roles = [])
    (hlt : t.role_requests.length < t.assigned_robots.length)
    (hpos : 1 ≤ t.role_requests.length) :
    BasicSeek.tick seeker_tick t ws = none := by
  have hcond : t.assigned_roles.length ≠ t.role_requests.length := by
    rw [hfresh]
    simp only [List.length_nil]
    omega
  rw [tick_unbound_eq seeker_tick t ws hcond]
  unfold BasicSeek.init_roles
  rw [bindRoles_none_of_short t.assigned_robots t.role_requests
    t.used_regions hlt]
  rfl

theorem scenario_init_eq : BasicSeek.init scenario_ws 2 = some scenario_t0 := by
  simp only [BasicSeek.init, scenario_t0,
    takeExact_of_le 2 (get_x_formation scenario_ws) (by decide),
    Option.map_some']

theorem scenario_first_tick :
    BasicSeek.tick regionTick scenario_t_full scenario_ws
      = some (scenario_t1, scenario_out1) := by
  rw [tick_unbound_eq regionTick scenario_t_full scenario_ws (by decide),
    init_roles_eq scenario_t_full (by decide) (by decide)]
  rfl

/-! Claim theorems. -/

/-- Claim C1.  The spec says the third region (index 2) is a square
centered on the field center with half-width the center-circle diameter,
so its bottom bound should be center_y - d.  The code computes that bound
(center_ydown) from index 0, the x-coordinate, of center_field_loc: at
the scenario field, where the center is (4.5, 3.0) and d = 0.5, the
region returned is (4, 3.5, 5, 4): its bottom bound is
center_x - d = 4, not center_y - d = 2.5, and it even lies above the top
bound 3.5.  The variable naming (center_ydown next to center_yup, which
does use index 1) shows the code is the slip. -/
theorem C1_center_region_bug :
    ((get_x_formation scenario_ws)[2]?).map Region.bottom_y
      = some (scenario_ws.field.center_field_loc.1
          - scenario_ws.field.center_diameter_m) ∧
    ((get_x_formation scenario_ws)[2]?).map Region.bottom_y
      ≠ some (scenario_ws.field.center_field_loc.2
          - scenario_ws.field.center_diameter_m) ∧
    (get_x_formation scenario_ws)[2]? = some ⟨4, 7 / 2, 5, 4⟩ := by
  refine ⟨rfl, ?_, ?_⟩
  · norm_num [get_x_formation, scenario_ws]
  · norm_num [get_x_formation, scenario_ws]

/-- Claim C2 is false as stated: at the scenario field (length 9,
quarter 2.25) the region at index 0 vertically spans
[27/4, 8] = [length - quarter, length - 1], which is neither the claimed
near band [0, quarter] nor the far band [length - quarter, length]. -/
theorem C2_counterexample :
    ((get_x_formation scenario_ws)[0]?).map (fun r => (r.bottom_y, r.top_y))
      = some (27 / 4, 8) ∧
    ((27 : ℚ) / 4, (8 : ℚ))
      ≠ ((0 : ℚ), scenario_ws.field.length_m / 4) ∧
    ((27 : ℚ) / 4, (8 : ℚ))
      ≠ (scenario_ws.field.length_m - scenario_ws.field.length_m / 4,
          scenario_ws.field.length_m) := by
  refine ⟨?_, ?_, ?_⟩
  · norm_num [get_x_formation, scenario_ws]
  · norm_num [scenario_ws]
  · norm_num [scenario_ws]

/-- Claim C2 (amended): with quarter = length/4, the flank regions at
indices 0 and 1 vertically span [length - quarter, length - 1] (the band
at the high-y end of the field, inset one unit from the end line), and
the flank regions at indices 3 and 4 vertically span [1, quarter] (the
band at the low-y end, inset one unit from that end line). -/
theorem C2_flank_bands (ws : WorldState) :
    ((get_x_formation ws)[0]?).map (fun r => (r.bottom_y, r.top_y))
      = some (ws.field.length_m - ws.field.length_m / 4,
          ws.field.length_m - 1) ∧
    ((get_x_formation ws)[1]?).map (fun r => (r.bottom_y, r.top_y))
      = some (ws.field.length_m - ws.field.length_m / 4,
          ws.field.length_m - 1) ∧
    ((get_x_formation ws)[3]?).map (fun r => (r.bottom_y, r.top_y))
      = some (1, ws.field.length_m / 4) ∧
    ((get_x_formation ws)[4]?).map (fun r => (r.bottom_y, r.top_y))
      = some (1, ws.field.length_m / 4) :=
  ⟨rfl, rfl, rfl, rfl⟩

/-- Claim C3 is false in its last conjunct: with two seekers requested
and a single robot (id 7) assigned, two ticks leave the tactic with two
bound roles, both for robot 7, because init_roles is re-run and appends
again whenever the counts still differ.  So bound_roles does contain
more than one role per assigned agent. -/
theorem C3_counterexample :
    twoTickRoles.map atMostOneRolePerRobot = some false ∧
    twoTickRoles.map (fun roles => roles.map (fun r => r.robot.id))
      = some [7, 7] := by
  decide

/-- Claim C3 (amended): with fewer assigned robots than requests, any
tick that finds the counts unequal succeeds without error and appends
one freshly built role per assigned robot to the existing bound roles;
the first such tick hence yields fewer roles than requested, but later
ticks keep appending duplicates instead of leaving the partial roster
fixed. -/
theorem C3_partial_roster_accumulates {Intent : Type}
    (seeker_tick : SeekerRole → WorldState → Intent)
    (t : BasicSeek) (ws : WorldState)
    (hreq : t.assigned_robots.length ≤ t.role_requests.length)
    (hreg : t.assigned_robots.length ≤ t.used_regions.length)
    (hne : t.assigned_roles.length ≠ t.role_requests.length) :
    ∃ t2 out, BasicSeek.tick seeker_tick t ws = some (t2, out) ∧
      t2.assigned_roles = t.assigned_roles ++
        List.zipWith SeekerRole.mk t.assigned_robots t.used_regions ∧
      t2.assigned_roles.length
        = t.assigned_roles.length + t.assigned_robots.length := by
  rw [tick_unbound_eq seeker_tick t ws hne, init_roles_eq t hreq hreg]
  refine ⟨_, _, rfl, rfl, ?_⟩
  simp [List.length_zipWith, Nat.min_eq_left hreg]

/-- Concrete instance of the amended claim C3: the scenario tactic with
two requests and one assigned robot. -/
theorem C3_partial_roster_accumulates_witness :
    scenario_t_partial.assigned_robots.length
      ≤ scenario_t_partial.role_requests.length ∧
    scenario_t_partial.assigned_robots.length
      ≤ scenario_t_partial.used_regions.length ∧
    scenario_t_partial.assigned_roles.length
      ≠ scenario_t_partial.role_requests.length ∧
    (∃ t2 out, BasicSeek.tick regionTick scenario_t_partial scenario_ws
        = some (t2, out) ∧
      t2.assigned_roles = scenario_t_partial.assigned_roles ++
        List.zipWith SeekerRole.mk scenario_t_partial.assigned_robots
          scenario_t_partial.used_regions ∧
      t2.assigned_roles.length
        = scenario_t_partial.assigned_roles.length
          + scenario_t_partial.assigned_robots.length) :=
  ⟨by decide, by decide, by decide,
    C3_partial_roster_accumulates regionTick scenario_t_partial scenario_ws
      (by decide) (by decide) (by decide)⟩

/-- Claim C9: is_done is the conjunction of the bound roles own is_done
answers on the same snapshot, and it is vacuously true whenever the
bound-role list is empty. -/
theorem C9_is_done_conjunction (seeker_done : SeekerRole → WorldState → Bool)
    (t : BasicSeek) (ws : WorldState) :
    (BasicSeek.is_done seeker_done t ws = true ↔
      ∀ role ∈ t.assigned_roles, seeker_done role ws = true) ∧
    BasicSeek.is_done seeker_done { t with assigned_roles := [] } ws
      = true := by
  constructor
  · simp [BasicSeek.is_done, List.all_eq_true]
  · simp [BasicSeek.is_done]

/-- Claim C4: once the bound-role count matches the request count,
binding never runs again.  From a fresh (unbound) state whose roster has
exactly as many robots as requests, the first tick binds to exactly the
requested count and every later tick returns the state unchanged, so
bound_roles stays fixed. -/
theorem C4_binding_at_most_once {Intent : Type}
    (seeker_tick : SeekerRole → WorldState → Intent)
    (t : BasicSeek) (ws : WorldState)
    (hfull : t.assigned_robots.length = t.role_requests.length)
    (hreg : t.role_requests.length ≤ t.used_regions.length)
    (hfresh : t.assigned_roles = []) :
    ∃ t1 out1, BasicSeek.tick seeker_tick t ws = some (t1, out1) ∧
      t1.assigned_roles.length = t1.role_requests.length ∧
      ∀ ws2 : WorldState, BasicSeek.tick seeker_tick t1 ws2
        = some (t1, t1.assigned_roles.map
            (fun role => (role.robot.id, seeker_tick role ws2))) := by
  by_cases hz : t.assigned_roles.length = t.role_requests.length
  · exact ⟨t, _, tick_bound_eq seeker_tick t ws hz, hz,
      fun ws2 => tick_bound_eq seeker_tick t ws2 hz⟩
  · have h1 : t.assigned_robots.length ≤ t.role_requests.length :=
      le_of_eq hfull
    have h2 : t.assigned_robots.length ≤ t.used_regions.length :=
      le_trans h1 hreg
    rw [tick_unbound_eq seeker_tick t ws hz, init_roles_eq t h1 h2]
    have hlen : (t.assigned_roles ++
        List.zipWith SeekerRole.mk t.assigned_robots
          t.used_regions).length = t.role_requests.length := by
      simp only [hfresh, List.nil_append, List.length_zipWith]
      omega
    refine ⟨_, _, rfl, hlen, ?_⟩
    intro ws2
    exact tick_bound_eq seeker_tick _ ws2 hlen

/-- Concrete instance of claim C4: the scenario tactic with the full
two-robot roster. -/
theorem C4_binding_at_most_once_witness :
    scenario_t_full.assigned_robots.length
      = scenario_t_full.role_requests.length ∧
    scenario_t_full.role_requests.length
      ≤ scenario_t_full.used_regions.length ∧
    scenario_t_full.assigned_roles = [] ∧
    (∃ t1 out1, BasicSeek.tick regionTick scenario_t_full scenario_ws
        = some (t1, out1) ∧
      t1.assigned_roles.length = t1.role_requests.length ∧
      ∀ ws2 : WorldState, BasicSeek.tick regionTick t1 ws2
        = some (t1, t1.assigned_roles.map
            (fun role => (role.robot.id, regionTick role ws2)))) :=
  ⟨by decide, by decide, rfl,
    C4_binding_at_most_once regionTick scenario_t_full scenario_ws
      (by decide) (by decide) rfl⟩

/-- Claim C5: the formation has exactly 5 regions and, being a pure
function of the snapshot, is deterministic; its fixed horizontal order is
left flank, right flank, center, left flank, right flank; the regions a
tactic stores are taken from the single construction-time snapshot; and
no tick (on any state) ever changes the stored regions. -/
theorem C5_regions_once {Intent : Type}
    (seeker_tick : SeekerRole → WorldState → Intent)
    (ws ws2 : WorldState) (n : ℕ) (t t3 t4 : BasicSeek)
    (out : List (ℕ × Intent))
    (hinit : BasicSeek.init ws n = some t)
    (htick : BasicSeek.tick seeker_tick t3 ws2 = some (t4, out)) :
    (get_x_formation ws).length = 5 ∧
    (get_x_formation ws).map (fun r => (r.left_x, r.right_x))
      = [(ws.field.bot_left_field_loc.1, ws.field.def_area_x_left_coord),
        (ws.field.def_area_x_right_coord, ws.field.bot_right_field_loc.1),
        (ws.field.center_field_loc.1 - ws.field.center_diameter_m,
          ws.field.center_field_loc.1 + ws.field.center_diameter_m),
        (ws.field.bot_left_field_loc.1, ws.field.def_area_x_left_coord),
        (ws.field.def_area_x_right_coord, ws.field.bot_right_field_loc.1)] ∧
    t.used_regions = (get_x_formation ws).take n ∧
    t4.used_regions = t3.used_regions := by
  refine ⟨rfl, rfl, ?_, ?_⟩
  · simp only [BasicSeek.init, Option.map_eq_some'] at hinit
    obtain ⟨regions, hre, ht⟩ := hinit
    obtain ⟨-, hregions⟩ := takeExact_some n _ regions hre
    subst ht
    exact hregions
  · unfold BasicSeek.tick at htick
    by_cases hc : t3.assigned_roles.length ≠ t3.role_requests.length
    · rw [if_pos hc] at htick
      simp only [Option.map_eq_some'] at htick
      obtain ⟨t5, h5, hpair⟩ := htick
      rw [Prod.mk.injEq] at hpair
      obtain ⟨ht45, -⟩ := hpair
      subst ht45
      exact (init_roles_frame t3 t5 h5).1
    · rw [if_neg hc] at htick
      simp only [Option.map_some', Option.some.injEq, Prod.mk.injEq] at htick
      obtain ⟨h34, -⟩ := htick
      subst h34
      rfl

/-- Concrete instance of claim C5: the scenario construction and the
first full-roster tick. -/
theorem C5_regions_once_witness :
    BasicSeek.init scenario_ws 2 = some scenario_t0 ∧
    BasicSeek.tick regionTick scenario_t_full scenario_ws
      = some (scenario_t1, scenario_out1) ∧
    ((get_x_formation scenario_ws).length = 5 ∧
      (get_x_formation scenario_ws).map (fun r => (r.left_x, r.right_x))
        = [(scenario_ws.field.bot_left_field_loc.1,
              scenario_ws.field.def_area_x_left_coord),
            (scenario_ws.field.def_area_x_right_coord,
              scenario_ws.field.bot_right_field_loc.1),
            (scenario_ws.field.center_field_loc.1
                - scenario_ws.field.center_diameter_m,
              scenario_ws.field.center_field_loc.1
                + scenario_ws.field.center_diameter_m),
            (scenario_ws.field.bot_left_field_loc.1,
              scenario_ws.field.def_area_x_left_coord),
            (scenario_ws.field.def_area_x_right_coord,
              scenario_ws.field.bot_right_field_loc.1)] ∧
      scenario_t0.used_regions = (get_x_formation scenario_ws).take 2 ∧
      scenario_t1.used_regions = scenario_t_full.used_regions) :=
  ⟨scenario_init_eq, scenario_first_tick,
    C5_regions_once regionTick scenario_ws scenario_ws 2 scenario_t0
      scenario_t_full scenario_t1 scenario_out1
      scenario_init_eq scenario_first_tick⟩

/-- Claim C6: constructing with num_seekers between 1 and 5 succeeds and
produces exactly num_seekers role requests, one per recorded region, in
region order: the recorded regions are the first num_seekers formation
regions, and request i pairs the seeker kind with the cost function
closed over the centroid (the coordinate midpoint) of region i.  The
ranking-by-distance semantics of that cost function is the spec-modelled
PickClosestToPoint.cost. -/
theorem C6_requests_built (ws : WorldState) (n : ℕ)
    (_hpos : 1 ≤ n) (hle : n ≤ 5) :
    ∃ t, BasicSeek.init ws n = some t ∧
      t.role_requests.length = n ∧
      t.used_regions = (get_x_formation ws).take n ∧
      t.role_requests = t.used_regions.map
        (fun r => (⟨regionCentroid r⟩, RoleKind.seeker)) ∧
      ∀ r : Region, regionCentroid r
        = ((r.left_x + r.right_x) / 2, (r.top_y + r.bottom_y) / 2) := by
  have h5 : (get_x_formation ws).length = 5 := rfl
  have hlen : n ≤ (get_x_formation ws).length := by rw [h5]; exact hle
  have hinit : BasicSeek.init ws n
      = some ⟨(get_x_formation ws).take n, n,
          ((get_x_formation ws).take n).map
            (fun r => (⟨regionCentroid r⟩, RoleKind.seeker)), [], []⟩ := by
    simp only [BasicSeek.init,
      takeExact_of_le n (get_x_formation ws) hlen, Option.map_some']
  refine ⟨_, hinit, ?_, rfl, rfl, fun r => rfl⟩
  simp only [List.length_map, List.length_take, h5]
  omega

/-- Concrete instance of claim C6: the scenario field with two seekers. -/
theorem C6_requests_built_witness :
    1 ≤ 2 ∧ 2 ≤ 5 ∧
    (∃ t, BasicSeek.init scenario_ws 2 = some t ∧
      t.role_requests.length = 2 ∧
      t.used_regions = (get_x_formation scenario_ws).take 2 ∧
      t.role_requests = t.used_regions.map
        (fun r => (⟨regionCentroid r⟩, RoleKind.seeker)) ∧
      ∀ r : Region, regionCentroid r
        = ((r.left_x + r.right_x) / 2, (r.top_y + r.bottom_y) / 2)) :=
  ⟨by decide, by decide,
    C6_requests_built scenario_ws 2 (by decide) (by decide)⟩

/-- Claim C7: with a full roster and a fresh state, binding succeeds and
is positional: the bound-role list is exactly the index-wise pairing of
assigned robots with the reserved regions, so the role at index i is
built from assigned robot i and region i. -/
theorem C7_positional_round_trip (t : BasicSeek)
    (hfull : t.assigned_robots.length = t.role_requests.length)
    (hreg : t.role_requests.length ≤ t.used_regions.length)
    (hfresh : t.assigned_roles = []) :
    ∃ t2, t.init_roles = some t2 ∧
      t2.assigned_roles
        = List.zipWith SeekerRole.mk t.assigned_robots t.used_regions ∧
      ∀ (i : ℕ) (robot : Robot) (my_region : Region),
        t.assigned_robots[i]? = some robot →
        t.used_regions[i]? = some my_region →
        t2.assigned_roles[i]? = some (SeekerRole.mk robot my_region) := by
  have h1 : t.assigned_robots.length ≤ t.role_requests.length :=
    le_of_eq hfull
  have h2 : t.assigned_robots.length ≤ t.used_regions.length :=
    le_trans h1 hreg
  refine ⟨_, init_roles_eq t h1 h2, ?_, ?_⟩
  · simp [hfresh]
  · intro i robot my_region hr hg
    simp [hfresh, List.getElem?_zipWith', hr, hg]

/-- Concrete instance of claim C7: the scenario tactic with robots 7 and
3 assigned. -/
theorem C7_positional_round_trip_witness :
    scenario_t_full.assigned_robots.length
      = scenario_t_full.role_requests.length ∧
    scenario_t_full.role_requests.length
      ≤ scenario_t_full.used_regions.length ∧
    scenario_t_full.assigned_roles = [] ∧
    (∃ t2, scenario_t_full.init_roles = some t2 ∧
      t2.assigned_roles = List.zipWith SeekerRole.mk
        scenario_t_full.assigned_robots scenario_t_full.used_regions ∧
      ∀ (i : ℕ) (robot : Robot) (my_region : Region),
        scenario_t_full.assigned_robots[i]? = some robot →
        scenario_t_full.used_regions[i]? = some my_region →
        t2.assigned_roles[i]? = some (SeekerRole.mk robot my_region)) :=
  ⟨by decide, by decide, rfl,
    C7_positional_round_trip scenario_t_full (by decide) (by decide) rfl⟩

/-- Claim C8: on a bound tactic (role count equals request count) a tick
returns the state unchanged together with the ordered list of
(robot id, intent) pairs, one per bound role in role order; in
particular, with zero bound roles the returned sequence is empty. -/
theorem C8_tick_pairs {Intent : Type}
    (seeker_tick : SeekerRole → WorldState → Intent)
    (t : BasicSeek) (ws : WorldState)
    (hbound : t.assigned_roles.length = t.role_requests.length) :
    BasicSeek.tick seeker_tick t ws
      = some (t, t.assigned_roles.map
          (fun role => (role.robot.id, seeker_tick role ws))) ∧
    (t.assigned_roles = [] →
      BasicSeek.tick seeker_tick t ws = some (t, [])) := by
  refine ⟨tick_bound_eq seeker_tick t ws hbound, fun hnil => ?_⟩
  rw [tick_bound_eq seeker_tick t ws hbound, hnil]
  rfl

/-- Concrete instance of claim C8: the bound scenario tactic returns the
pairs for robots 7 and 3, in that order. -/
theorem C8_tick_pairs_witness :
    scenario_t1.assigned_roles.length
      = scenario_t1.role_requests.length ∧
    (BasicSeek.tick regionTick scenario_t1 scenario_ws
        = some (scenario_t1, scenario_t1.assigned_roles.map
            (fun role => (role.robot.id, regionTick role scenario_ws))) ∧
      (scenario_t1.assigned_roles = [] →
        BasicSeek.tick regionTick scenario_t1 scenario_ws
          = some (scenario_t1, []))) ∧
    scenario_out1.map Prod.fst = [7, 3] :=
  ⟨by decide,
    C8_tick_pairs regionTick scenario_t1 scenario_ws (by decide),
    by decide⟩

/-- Claim C10: if construction succeeded with n requests (n at least 1)
and the resolver assigned strictly more than n robots, the first tick
fails with an uncaught index error (modelled as none) while reading the
role-request list past its end, instead of binding only the first n
robots. -/
theorem C10_over_assignment_errors {Intent : Type}
    (seeker_tick : SeekerRole → WorldState → Intent)
    (ws : WorldState) (n : ℕ) (t : BasicSeek) (robots : List Robot)
    (hinit : BasicSeek.init ws n = some t)
    (hpos : 1 ≤ n) (hmore : n < robots.length) :
    BasicSeek.tick seeker_tick (t.assign robots) ws = none := by
  simp only [BasicSeek.init, Option.map_eq_some'] at hinit
  obtain ⟨regions, hre, ht⟩ := hinit
  obtain ⟨hle, hregions⟩ := takeExact_some n _ regions hre
  have h5 : (get_x_formation ws).length = 5 := rfl
  rw [h5] at hle
  subst ht
  have hreqlen : (regions.map
      (fun r => ((⟨regionCentroid r⟩ : PickClosestToPoint),
        RoleKind.seeker))).length = n := by
    subst hregions
    simp only [List.length_map, List.length_take, h5]
    omega
  apply tick_over_requested
  · rfl
  · simp only [BasicSeek.assign]
    rw [hreqlen]
    exact hmore
  · simp only [BasicSeek.assign]
    rw [hreqlen]
    exact hpos

/-- Concrete instance of claim C10: the scenario tactic with two
requests and three assigned robots errors on its first tick. -/
theorem C10_over_assignment_errors_witness :
    BasicSeek.init scenario_ws 2 = some scenario_t0 ∧
    1 ≤ 2 ∧
    2 < ([⟨7⟩, ⟨3⟩, ⟨5⟩] : List Robot).length ∧
    BasicSeek.tick regionTick
      (scenario_t0.assign [⟨7⟩, ⟨3⟩, ⟨5⟩]) scenario_ws = none :=
  ⟨scenario_init_eq, by decide, by decide,
    C10_over_assignment_errors regionTick scenario_ws 2 scenario_t0
      [⟨7⟩, ⟨3⟩, ⟨5⟩] scenario_init_eq (by decide) (by decide)⟩

/-- Concrete instance of the amended claim C2 at the scenario field
(length 9, quarter 9/4). -/
theorem C2_flank_bands_witness :
    ((get_x_formation scenario_ws)[0]?).map (fun r => (r.bottom_y, r.top_y))
      = some (scenario_ws.field.length_m - scenario_ws.field.length_m / 4,
          scenario_ws.field.length_m - 1) ∧
    ((get_x_formation scenario_ws)[1]?).map (fun r => (r.bottom_y, r.top_y))
      = some (scenario_ws.field.length_m - scenario_ws.field.length_m / 4,
          scenario_ws.field.length_m - 1) ∧
    ((get_x_formation scenario_ws)[3]?).map (fun r => (r.bottom_y, r.top_y))
      = some (1, scenario_ws.field.length_m / 4) ∧
    ((get_x_formation scenario_ws)[4]?).map (fun r => (r.bottom_y, r.top_y))
      = some (1, scenario_ws.field.length_m / 4) :=
  C2_flank_bands scenario_ws

/-- Concrete instance of claim C9: the bound scenario tactic with the
always-done role query. -/
theorem C9_is_done_conjunction_witness :
    (BasicSeek.is_done (fun _ _ => true) scenario_t1 scenario_ws = true ↔
      ∀ role ∈ scenario_t1.assigned_roles,
        (fun (_ : SeekerRole) (_ : WorldState) => true) role scenario_ws
          = true) ∧
    BasicSeek.is_done (fun _ _ => true)
      { scenario_t1 with assigned_roles := [] } scenario_ws = true :=
  C9_is_done_conjunction (fun _ _ => true) scenario_t1 scenario_ws
